import Mathlib

/-!
Verification of the fajt ECMAScript front-end against its specification.

Each Rust source file is embedded as a Lean namespace:
* `Fajt.lexfile`  — src/lexer/src/lib.rs (the character reader and lexer defined there)
* `Fajt.reader`   — src/lexer/src/reader.rs
* `Fajt.token`    — src/lexer/src/token.rs
* `Fajt.parser`   — src/parser/src (lib.rs, cover.rs, iteration.rs, early_error.rs,
                    parser/function.rs, parser/module.rs)

Rust `Result` is embedded as `Except`, `&mut self` methods as explicit
state passing, and reachable panics (`unwrap`, `unimplemented!`) as a
dedicated `panic` outcome. Machine integers index into `List Char`
representations of the source, with byte offsets computed from
`Char.utf8Size`.
-/

namespace Fajt

/-- Span from fajt_ast: half-open offsets into the original source.
The Rust field `end` is spelled `stop` because `end` is reserved in Lean. -/
structure Span where
  start : Nat
  stop : Nat
deriving DecidableEq, Repr

/-- Span::new. -/
def Span.new (start stop : Nat) : Span := ⟨start, stop⟩

/-- Span::empty (used by Error::syntax_error for the kind payload). -/
def Span.empty : Span := ⟨0, 0⟩

/-- Sum of the UTF-8 byte sizes of a list of scalars: the byte length of the
encoded prefix. Used to state what a byte offset is. -/
def utf8Len (l : List Char) : Nat := (l.map Char.utf8Size).sum

/-- Model of Rust's `str::char_indices`: each scalar paired with its byte
offset. `o` is the byte offset of the first scalar of `s`. -/
def charIndicesAux (o : Nat) : List Char → List (Nat × Char)
  | [] => []
  | c :: cs => (o, c) :: charIndicesAux (o + c.utf8Size) cs

/-- char_indices of a full string (offset 0). -/
def charIndices (s : List Char) : List (Nat × Char) := charIndicesAux 0 s

namespace lexerr

/-- Lexer error kinds. `EndOfFile` is the kind the reader and lexer construct
in src/lexer/src/reader.rs and src/lexer/src/lib.rs. The remaining kinds are
modelled from the spec: src/lexer/src/error.rs is not part of the staged
sources; §4.2 lists UnrecognizedCodePoint, UnterminatedString,
UnterminatedTemplate, UnterminatedComment, InvalidNumericLiteral and
InvalidEscape. -/
inductive ErrorKind
  | EndOfFile
  | UnrecognizedCodePoint (c : Char)
  | UnterminatedString
  | UnterminatedTemplate
  | UnterminatedComment
  | InvalidNumericLiteral
  | InvalidEscape
deriving DecidableEq, Repr

end lexerr

namespace reader

/-- Reader from src/lexer/src/reader.rs: lookahead-1 stream of Unicode
scalars. `iter` holds the not-yet-loaded remainder of `char_indices`. -/
structure Reader where
  iter : List (Nat × Char)
  current : Nat × Char
  next : Option (Nat × Char)
  position : Nat
  end_of_file : Bool
deriving DecidableEq, Repr

/-- Reader::new. Pulls the first scalar into `current` (failing with
`EndOfFile` on empty input, via `ok_or_else`) and the second into `next`. -/
def Reader.new (input : List Char) : Except lexerr.ErrorKind Reader :=
  match charIndices input with
  | [] => .error .EndOfFile
  | current :: rest =>
    .ok { iter := rest.drop 1
          current := current
          next := rest.head?
          position := 0
          end_of_file := false }

/-- Reader::eof. -/
def Reader.eof (r : Reader) : Bool := r.end_of_file

/-- Reader::next (named `nextResult` here: the structure already has the
source's `next` field). Increments `position` (unless already past the end),
then either shifts the lookahead window or records end of file and fails.
The Rust method mutates `self` and returns `Result<char>`; both the result
and the updated reader are returned here. -/
def Reader.nextResult (r : Reader) : Except lexerr.ErrorKind Char × Reader :=
  let pos := if !r.end_of_file then r.position + 1 else r.position
  match r.next with
  | some nxt =>
    (.ok nxt.2,
     { r with position := pos, current := nxt, next := r.iter.head?, iter := r.iter.tail })
  | none => (.error .EndOfFile, { r with position := pos, end_of_file := true })

/-- The reader state alone after Reader::next (the advancing half of the
call, with the returned `Result<char>` discarded). -/
def Reader.advance (r : Reader) : Reader := (Reader.nextResult r).2

/-- `n` successive calls to Reader::next, keeping only the state. -/
def advanceN (r : Reader) : Nat → Reader
  | 0 => r
  | n + 1 => advanceN r.advance n

/-- The reader state reached after `n` in-bounds advances over source `s`:
the window is centred on scalar `n`. -/
def readerAt (s : List Char) (n : Nat) : Reader :=
  { iter := (charIndices s).drop (n + 2)
    current := ((charIndices s)[n]?).getD (0, ' ')
    next := ((charIndices s).drop (n + 1)).head?
    position := n
    end_of_file := false }

end reader

namespace token

/-- Keyword from src/lexer/src/token.rs (the fixed keyword set). -/
inductive Keyword
  | Await | As | Async | Break | Case | Catch | Class | Const | Continue
  | Debugger | Default | Delete | Do | Else | Enum | Export | Extends
  | False | Finally | For | From | Function | Get | If | Implements
  | Import | In | Instanceof | Interface | Let | New | Null | Of
  | Package | Private | Protected | Public | Return | Set | Static
  | Super | Switch | Target | This | Throw | True | Try | Typeof
  | Var | Void | While | With | Yield
deriving DecidableEq, Repr

/-- The string of a keyword. The FromString derive in
src/macros/src/enum_from_string.rs maps each variant to its name
lowercased (no keyword variant overrides it with #[from_string]), and
Display/to_string round-trips through the same strings. -/
def Keyword.toStr : Keyword → String
  | .Await => "await" | .As => "as" | .Async => "async" | .Break => "break"
  | .Case => "case" | .Catch => "catch" | .Class => "class" | .Const => "const"
  | .Continue => "continue" | .Debugger => "debugger" | .Default => "default"
  | .Delete => "delete" | .Do => "do" | .Else => "else" | .Enum => "enum"
  | .Export => "export" | .Extends => "extends" | .False => "false"
  | .Finally => "finally" | .For => "for" | .From => "from"
  | .Function => "function" | .Get => "get" | .If => "if"
  | .Implements => "implements" | .Import => "import" | .In => "in"
  | .Instanceof => "instanceof" | .Interface => "interface" | .Let => "let"
  | .New => "new" | .Null => "null" | .Of => "of" | .Package => "package"
  | .Private => "private" | .Protected => "protected" | .Public => "public"
  | .Return => "return" | .Set => "set" | .Static => "static"
  | .Super => "super" | .Switch => "switch" | .Target => "target"
  | .This => "this" | .Throw => "throw" | .True => "true" | .Try => "try"
  | .Typeof => "typeof" | .Var => "var" | .Void => "void" | .While => "while"
  | .With => "with" | .Yield => "yield"

/-- All keywords, for the generated FromStr lookup. -/
def Keyword.all : List Keyword :=
  [.Await, .As, .Async, .Break, .Case, .Catch, .Class, .Const, .Continue,
   .Debugger, .Default, .Delete, .Do, .Else, .Enum, .Export, .Extends,
   .False, .Finally, .For, .From, .Function, .Get, .If, .Implements,
   .Import, .In, .Instanceof, .Interface, .Let, .New, .Null, .Of,
   .Package, .Private, .Protected, .Public, .Return, .Set, .Static,
   .Super, .Switch, .Target, .This, .Throw, .True, .Try, .Typeof,
   .Var, .Void, .While, .With, .Yield]

/-- FromStr generated by the FromString derive: the first variant whose
string equals the input. -/
def keywordFromString (s : String) : Option Keyword :=
  Keyword.all.find? (fun k => k.toStr == s)

/-- KeywordContext from src/lexer/src/token.rs: the bitflags AWAIT, YIELD
and STRICT modelled as three booleans. -/
structure KeywordContext where
  await : Bool
  yield : Bool
  strict : Bool
deriving DecidableEq, Repr

/-- KeywordContext::empty(). -/
def KeywordContext.empty : KeywordContext := ⟨false, false, false⟩

/-- Keyword::is_allows_as_identifier from src/lexer/src/token.rs: true if
the keyword is allowed to be an identifier in the context provided. -/
def Keyword.is_allows_as_identifier (k : Keyword) (ctx : KeywordContext) : Bool :=
  match k with
  | .As | .Async | .From | .Get | .Of | .Set | .Target => true
  | .Await => !ctx.await
  | .Yield => !(ctx.yield || ctx.strict)
  | .Implements | .Interface | .Let | .Package | .Private | .Protected
  | .Public | .Static => !ctx.strict
  | _ => false

/-- Punct from src/lexer/src/token.rs (variant names as in the source; the
#[from_string] spellings are in that file). -/
inductive Punct
  | ParenOpen | ParenClose | BraceOpen | BraceClose | BracketOpen | BracketClose
  | Dot | TripleDot | SemiColon | Comma
  | LessThan | DoubleLessThan | GreaterThan | DoubleGreaterThan | TripleGreaterThan
  | Equal | DoubleEqual | LessEqual | DoubleLessEqual | GreaterEqual
  | DoubleGreaterEqual | TripleGreaterEqual | EqualGreater | NotEqual
  | PlusEqual | MinusEqual | StarEqual | DoubleStarEqual | SlashEqual
  | PercentEqual | PipeEqual | CaretEqual | AmpersandEqual
  | TripleEqual | ExclamationDoubleEqual
  | Plus | DoublePlus | Minus | DoubleMinus | Star | DoubleStar | Slash
  | Percent | Ampersand | DoubleAmpersand | Pipe | DoublePipe | Caret
  | Exclamation | Tilde | QuestionMark | DoubleQuestionMark | QuestionMarkDot
  | Colon
deriving DecidableEq, Repr

/-- Number bases, from fajt_ast (modelled from the spec §4.2: binary, octal,
decimal, hex; fajt_ast is not among the staged sources). -/
inductive Base
  | Binary | Octal | Decimal | Hex
deriving DecidableEq, Repr

/-- Numbers, from fajt_ast (modelled from the spec §3: integer with base, or
floating decimal; the f64 payload is kept as its source text since floating
point is not modelled). -/
inductive Number
  | Integer (value : Int) (base : Base)
  | Decimal (text : String)
deriving DecidableEq, Repr

/-- Literal, from fajt_ast (modelled from the spec §3: numeric, string with
delimiter, regexp, no-substitution template). -/
inductive Literal
  | Number (n : Number)
  | String (value : String) (delimiter : Char)
  | Regexp (body : String) (flags : String)
  | Template (text : String)
deriving DecidableEq, Repr

/-- TokenValue from src/lexer/src/token.rs, together with the template-part
variants the spec §3 lists (TemplateHead/Middle/Tail are matched by
src/parser/src/cover.rs; the token.rs revision under src lacks them). -/
inductive TokenValue
  | Keyword (k : Keyword)
  | Identifier (s : String)
  | Punct (p : Punct)
  | Literal (l : Literal)
  | TemplateHead (s : String)
  | TemplateMiddle (s : String)
  | TemplateTail (s : String)
deriving DecidableEq, Repr

/-- Token from src/lexer/src/token.rs. -/
structure Token where
  value : TokenValue
  first_on_line : Bool
  span : Span
deriving DecidableEq, Repr

/-- Token::new. -/
def Token.new (value : TokenValue) (first_on_line : Bool) (span : Span) : Token :=
  ⟨value, first_on_line, span⟩

end token

namespace lexfile

/-! Embedding of src/lexer/src/lib.rs: the in-file Reader (line/column
tracking) and the Lexer with its read/next/read_number/
read_identifier_or_keyword methods. Reachable Rust panics
(`unimplemented!`, `.unwrap()`) are modelled by the `panicked` outcome;
loops carry explicit fuel, whose exhaustion is the separate outcome
`fuelOut` so that it can never be mistaken for a result of the code. -/

/-- Position as used by this file's Reader ({line, column}). -/
structure Position where
  line : Nat
  column : Nat
deriving DecidableEq, Repr

/-- AssignOp from this revision's crate::token (that token.rs revision is
not among the staged sources; the variants are exactly the ones this file
constructs). -/
inductive AssignOp
  | None | Divide | Multiply | Modulus | Add | Subtract
  | BitwiseOr | BitwiseXOr | BitwiseAnd
deriving DecidableEq, Repr

/-- Number as this file constructs it: Number::Integer(i64, Base). -/
inductive Number
  | Integer (value : Int) (base : token.Base)
deriving DecidableEq, Repr

/-- TokenValue of this revision: Assign, Number, Keyword, Identifier. The
keyword set is taken from src/lexer/src/token.rs. -/
inductive TokenValue
  | Assign (op : AssignOp)
  | Number (n : Number)
  | Keyword (k : token.Keyword)
  | Identifier (s : String)
deriving DecidableEq, Repr

/-- Token of this revision: a value with a (start, end) Position span. -/
structure Token where
  value : TokenValue
  span : Position × Position
deriving DecidableEq, Repr

/-- Token::new. -/
def Token.new (value : TokenValue) (span : Position × Position) : Token :=
  ⟨value, span⟩

/-- Reader defined inside src/lexer/src/lib.rs. -/
structure Reader where
  input : List Char
  iter : List (Nat × Char)
  current : Nat × Char
  next : Option (Nat × Char)
  line : Nat
  column : Nat
deriving DecidableEq, Repr

/-- Reader::new (src/lexer/src/lib.rs): fails with EndOfFile on empty
input, else loads the first two scalars into the window. -/
def Reader.new (input : List Char) : Except lexerr.ErrorKind Reader :=
  match charIndices input with
  | [] => .error .EndOfFile
  | current :: rest =>
    .ok { input := input
          iter := rest.drop 1
          current := current
          next := rest.head?
          line := 0
          column := 0 }

/-- Reader::position. -/
def Reader.position (r : Reader) : Position := ⟨r.line, r.column⟩

/-- Reader::current (the scalar value). -/
def Reader.currentChar (r : Reader) : Char := r.current.2

/-- Reader::peek. -/
def Reader.peek (r : Reader) : Option Char := r.next.map (·.2)

/-- Reader::next (src/lexer/src/lib.rs): `self.current = self.next.ok_or(EndOfFile)?`
then shift the window and bump the column (`// TODO new line`: the line is
never advanced, so the column counts all scalars consumed so far). -/
def Reader.nextResult (r : Reader) : Except lexerr.ErrorKind Char × Reader :=
  match r.next with
  | none => (.error .EndOfFile, r)
  | some nxt =>
    (.ok nxt.2,
     { r with current := nxt, next := r.iter.head?, iter := r.iter.tail,
              column := r.column + 1 })

/-- CodePoint::is_ecma_whitespace (ASCII and the listed Unicode points). -/
def is_ecma_whitespace (c : Char) : Bool :=
  c == '\u0009' || c == '\u000B' || c == '\u000C' || c == ' ' ||
  c == ' ' || c == '﻿' ||
  c == ' ' || (0x2000 ≤ c.toNat && c.toNat ≤ 0x200A) ||
  c == ' ' || c == ' ' || c == '　'

/-- CodePoint::is_ecma_line_terminator. -/
def is_ecma_line_terminator (c : Char) : Bool :=
  c == '\u000A' || c == '\u000D' || c == ' ' || c == ' '

/-- CodePoint::is_start_of_identifier (ASCII letters, `_`, `$`; the
Unicode extension is a TODO in the source). -/
def is_start_of_identifier (c : Char) : Bool :=
  ('A' ≤ c && c ≤ 'Z') || ('a' ≤ c && c ≤ 'z') || c == '_' || c == '$'

/-- CodePoint::is_part_of_identifier. -/
def is_part_of_identifier (c : Char) : Bool :=
  ('0' ≤ c && c ≤ '9') || ('A' ≤ c && c ≤ 'Z') || ('a' ≤ c && c ≤ 'z') ||
  c == '_' || c == '$'

/-- Outcome of running a piece of Rust that may return Ok, return Err,
panic, or (an artefact of the embedding only) run out of fuel. -/
inductive Outcome (α : Type)
  | ok (a : α)
  | err (e : lexerr.ErrorKind)
  | panicked
  | fuelOut
deriving DecidableEq, Repr

/-- Rust's `str::parse::<i64>` on the strings this lexer builds (no sign,
no leading `+`): all-digit strings whose value fits in an i64. -/
def parse_i64 (s : List Char) : Option Int :=
  if s ≠ [] ∧ s.all (·.isDigit) then
    let v := s.foldl (fun a c => a * 10 + (c.toNat - '0'.toNat)) 0
    if v ≤ 9223372036854775807 then some (Int.ofNat v) else none
  else none

/-- Lexer::skip_whitespaces: `while current().is_ecma_whitespace() || current() == ';'`
(the `;` is skipped per the source's `TODO handle semi colon`); each
iteration advances the reader, propagating its error. -/
def skip_whitespaces : Nat → Reader → Outcome Reader
  | 0, _ => .fuelOut
  | fuel + 1, r =>
    if is_ecma_whitespace r.currentChar || r.currentChar == ';' then
      match r.nextResult with
      | (.ok _, r') => skip_whitespaces fuel r'
      | (.error e, _) => .err e
    else .ok r

/-- The loop inside Lexer::read_number: extend `num_str` while the next
scalar is alphanumeric; `self.reader.next().unwrap()` panics at end of
file. Rust's char::is_alphanumeric is Unicode; `Char.isAlphanum` agrees
with it on the ASCII inputs used here. -/
def read_number_loop : Nat → Reader → List Char → Outcome (List Char × Reader)
  | 0, _, _ => .fuelOut
  | fuel + 1, r, num_str =>
    match r.nextResult with
    | (.ok c, r') =>
      if c.isAlphanum then read_number_loop fuel r' (num_str ++ [c])
      else .ok (num_str, r')
    | (.error _, _) => .panicked

/-- Lexer::read_number: collect the digits, then
`num_str.parse::<i64>().unwrap()` — the parse failure is a panic. -/
def read_number (fuel : Nat) (r : Reader) : Outcome (TokenValue × Reader) :=
  match read_number_loop fuel r [r.currentChar] with
  | .ok (num_str, r') =>
    match parse_i64 num_str with
    | some value => .ok (.Number (.Integer value .Decimal), r')
    | none => .panicked
  | .err e => .err e
  | .panicked => .panicked
  | .fuelOut => .fuelOut

/-- The loop inside Lexer::read_identifier_or_keyword, with the same
`.unwrap()` panic at end of file. -/
def read_identifier_loop : Nat → Reader → List Char → Outcome (List Char × Reader)
  | 0, _, _ => .fuelOut
  | fuel + 1, r, word =>
    match r.nextResult with
    | (.ok c, r') =>
      if is_part_of_identifier c then read_identifier_loop fuel r' (word ++ [c])
      else .ok (word, r')
    | (.error _, _) => .panicked

/-- Lexer::read_identifier_or_keyword: a word that parses as a Keyword is a
keyword token, otherwise an identifier. -/
def read_identifier_or_keyword (fuel : Nat) (r : Reader) : Outcome (TokenValue × Reader) :=
  match read_identifier_loop fuel r [r.currentChar] with
  | .ok (word, r') =>
    match token.keywordFromString (String.mk word) with
    | some keyword => .ok (.Keyword keyword, r')
    | none => .ok (.Identifier (String.mk word), r')
  | .err e => .err e
  | .panicked => .panicked
  | .fuelOut => .fuelOut

/-- The assign-with-operator table of Lexer::next (`<op>=`); the source's
`_ => unreachable!()` arm is a panic. -/
def assign_op_of (c : Char) : Outcome AssignOp :=
  if c == '/' then .ok .Divide
  else if c == '*' then .ok .Multiply
  else if c == '%' then .ok .Modulus
  else if c == '+' then .ok .Add
  else if c == '-' then .ok .Subtract
  else if c == '|' then .ok .BitwiseOr
  else if c == '^' then .ok .BitwiseXOr
  else if c == '&' then .ok .BitwiseAnd
  else .panicked

/-- Lexer::next (src/lexer/src/lib.rs lines 103–139): skip whitespace, then
dispatch on the current scalar. The final `c => unimplemented!(..)` arm —
reached by every scalar that is not `=`, a compound-assign head followed by
`=`, a digit, or an identifier start — is a panic. -/
def lexer_next (fuel : Nat) (r0 : Reader) : Outcome (Token × Reader) :=
  match skip_whitespaces fuel r0 with
  | .ok r =>
    let current := r.currentChar
    let start := r.position
    let step : Outcome (TokenValue × Reader) :=
      if current == '=' && r.peek != some '=' then
        match r.nextResult with
        | (.ok _, r') => .ok (.Assign .None, r')
        | (.error e, _) => .err e
      else if (current == '/' || current == '*' || current == '%' ||
               current == '+' || current == '-' || current == '|' ||
               current == '^' || current == '&') && r.peek == some '=' then
        match r.nextResult with
        | (.ok _, r1) =>
          match r1.nextResult with
          | (.ok _, r2) =>
            match assign_op_of current with
            | .ok op => .ok (.Assign op, r2)
            | _ => .panicked
          | (.error e, _) => .err e
        | (.error e, _) => .err e
      else if '0' ≤ current && current ≤ '9' then
        read_number fuel r
      else if is_start_of_identifier current then
        read_identifier_or_keyword fuel r
      else
        .panicked
    match step with
    | .ok (value, r') => .ok (Token.new value (start, r'.position), r')
    | .err e => .err e
    | .panicked => .panicked
    | .fuelOut => .fuelOut
  | .err e => .err e
  | .panicked => .panicked
  | .fuelOut => .fuelOut

/-- Lexer from src/lexer/src/lib.rs. -/
structure Lexer where
  reader : Reader
deriving DecidableEq, Repr

/-- Lexer::new: builds the in-file Reader (so it fails with EndOfFile on
empty input — the unit tests call this out with "Could not create lexer,
empty input?"). -/
def Lexer.new (data : List Char) : Except lexerr.ErrorKind Lexer :=
  (Reader.new data).map Lexer.mk

/-- The loop of Lexer::read: collect tokens until a `next` call fails;
EndOfFile ends the loop normally, any other error is returned. -/
def read_loop : Nat → Reader → List Token → Outcome (List Token)
  | 0, _, _ => .fuelOut
  | fuel + 1, r, tokens =>
    match lexer_next (fuel + 1) r with
    | .ok (t, r') => read_loop fuel r' (tokens ++ [t])
    | .err e => if e == .EndOfFile then .ok tokens else .err e
    | .panicked => .panicked
    | .fuelOut => .fuelOut

/-- Lexer::new followed by Lexer::read on a whole string, with fuel ample
for the input (`length + 2` scalars bound every loop). -/
def lexString (s : String) : Outcome (List Token) :=
  match Lexer.new s.data with
  | .error e => .err e
  | .ok l => read_loop (s.data.length + 2) l.reader []

/-- source[a..b] by scalar index. In this lexer revision spans count
scalars: Reader::next never advances `line` (`// TODO new line`) and bumps
`column` once per scalar consumed, so a span's column is its global scalar
offset. -/
def sliceScalars (src : List Char) (a b : Nat) : List Char :=
  (src.drop a).take (b - a)

/-- source[token.span]. -/
def tokenSlice (src : List Char) (t : Token) : List Char :=
  sliceScalars src t.span.1.column t.span.2.column

/-- The whitespace lying in the source between scalar offsets a and b. -/
def gapWhitespace (src : List Char) (a b : Nat) : List Char :=
  (sliceScalars src a b).filter is_ecma_whitespace

/-- The tail of the round-trip reconstruction: each token's source slice,
interleaved with the whitespace between consecutive tokens, and the
whitespace after the last token. -/
def reconstructGo (src : List Char) : Token → List Token → List Char
  | t, [] => tokenSlice src t ++ gapWhitespace src t.span.2.column src.length
  | t, u :: rest =>
    tokenSlice src t ++ gapWhitespace src t.span.2.column u.span.1.column ++
      reconstructGo src u rest

/-- Round-trip reconstruction of the claim (§8 Round-trip 1): concatenate
source[token.span] over all tokens in order, interleaved with the
whitespace that lies between consecutive tokens in the source (the
whitespace before the first and after the last token included, the most
charitable reading). -/
def reconstruct (src : List Char) : List Token → List Char
  | [] => src.filter is_ecma_whitespace
  | t :: rest => gapWhitespace src 0 t.span.1.column ++ reconstructGo src t rest

end lexfile

/-- Outcome of a Rust `Result::unwrap()`. -/
inductive Unwrapped (α : Type)
  | value (a : α)
  | panicked
deriving Repr

/-- Rust `.unwrap()` on a `Result`. -/
def unwrapResult {ε α : Type} : Except ε α → Unwrapped α
  | .ok a => .value a
  | .error _ => .panicked

/-- The first step of `parse<T>` in src/parser/src/lib.rs lines 57–64:
`let lexer = Lexer::new(input).unwrap();`. The fajt_lexer::Lexer revision
that lib.rs links against is not among the staged sources; the staged
lexer of src/lexer/src/lib.rs stands in for it (every lexer constructor
under src fails with EndOfFile on empty input, per Reader::new in both
src/lexer/src/lib.rs and src/lexer/src/reader.rs). -/
def parse_lexer_construction (input : String) : Unwrapped lexfile.Lexer :=
  unwrapResult (lexfile.Lexer.new input.data)

namespace parser

/-- Context from src/parser/src/lib.rs (grammar parameters). -/
structure Context where
  is_await : Bool
  is_yield : Bool
  is_in : Bool
  is_strict : Bool
  is_default : Bool
deriving DecidableEq, Repr

/-- Context::default(). -/
def Context.default : Context := ⟨false, false, false, false, false⟩

/-- The with_await modifier generated by the modifier! macro. -/
def Context.with_await (c : Context) (b : Bool) : Context := { c with is_await := b }

/-- The with_yield modifier. -/
def Context.with_yield (c : Context) (b : Bool) : Context := { c with is_yield := b }

/-- The with_in modifier. -/
def Context.with_in (c : Context) (b : Bool) : Context := { c with is_in := b }

/-- The with_strict modifier. -/
def Context.with_strict (c : Context) (b : Bool) : Context := { c with is_strict := b }

/-- The with_default modifier. -/
def Context.with_default (c : Context) (b : Bool) : Context := { c with is_default := b }

/-- Context::keyword_context: ors AWAIT, YIELD, STRICT into an empty
KeywordContext. -/
def Context.keyword_context (c : Context) : token.KeywordContext :=
  { await := c.is_await, yield := c.is_yield, strict := c.is_strict }

/-- Ident from fajt_ast (shape visible in src/parser/src/ast.rs: span and
name). -/
structure Ident where
  span : Span
  name : String
deriving DecidableEq, Repr

/-- Ident::new(name, span). -/
def Ident.new (name : String) (span : Span) : Ident := ⟨span, name⟩

/-- ErrorKind from src/parser/src/error/mod.rs. ExpectedOtherToken and
ExpectedIdent are constructed by src/parser/src/lib.rs and listed in the
spec §7 (ExpectedOther, ExpectedIdentifier) though the staged error/mod.rs
revision predates them. -/
inductive ErrorKind
  | EndOfStream
  | LexerError (e : lexerr.ErrorKind)
  | SyntaxError (message : String) (sp : Span)
  | UnexpectedToken (t : token.Token)
  | UnexpectedIdent (i : Ident)
  | ForbiddenIdentifier (name : String)
  | ExpectedOtherToken (actual : token.Token) (expected : token.TokenValue)
  | ExpectedIdent (t : token.Token)
deriving DecidableEq, Repr

/-- Error from src/parser/src/error/mod.rs: a kind plus the error span
(the optional diagnostic is always None in the embedded code paths). -/
structure Error where
  kind : ErrorKind
  span : Span
deriving DecidableEq, Repr

/-- Error::syntax_error — note the source stores Span::empty() inside the
kind and the real span on the error itself. -/
def Error.syntax_error (message : String) (span : Span) : Error :=
  ⟨.SyntaxError message Span.empty, span⟩

/-- Error::unexpected_token. -/
def Error.unexpected_token (t : token.Token) : Error := ⟨.UnexpectedToken t, t.span⟩

/-- Error::forbidden_identifier. -/
def Error.forbidden_identifier (name : String) (span : Span) : Error :=
  ⟨.ForbiddenIdentifier name, span⟩

/-- Error::end_of_stream. -/
def Error.end_of_stream (pos : Nat) : Error := ⟨.EndOfStream, Span.new pos pos⟩

/-- Error::expected_other_token (sited on the actual token). -/
def Error.expected_other_token (actual : token.Token) (expected : token.TokenValue) : Error :=
  ⟨.ExpectedOtherToken actual expected, actual.span⟩

/-- Error::expected_ident. -/
def Error.expected_ident (t : token.Token) : Error := ⟨.ExpectedIdent t, t.span⟩

/-- Expr from fajt_ast, modelled from the spec §3 (fajt_ast is not among
the staged sources): a closed sum with a span on every node. The variants
the claims inspect are IdentRef, Parenthesized and Member; the rest stand
for the remaining spec-listed constructors. -/
inductive Expr
  | IdentRef (ident : Ident)
  | This (span : Span)
  | Super (span : Span)
  | Literal (span : Span) (literal : token.Literal)
  | Unary (span : Span) (argument : Expr)
  | Binary (span : Span) (left : Expr) (right : Expr)
  | Member (span : Span) (object : Expr) (property : String)
  | Call (span : Span) (callee : Expr)
  | Sequence (span : Span) (left : Expr) (right : Expr)
  | Parenthesized (span : Span) (expression : Expr)
  | ArrowFunction (span : Span)
  | AwaitExpr (span : Span) (argument : Expr)
  | YieldExpr (span : Span) (argument : Expr)
deriving DecidableEq, Repr

/-- BindingPattern from fajt_ast, modelled from the spec §4.4.5; the
object/array pattern contents are outside the verified fragment. -/
inductive BindingPattern
  | Ident (ident : Ident)
  | Object (span : Span)
  | Array (span : Span)
deriving DecidableEq, Repr

/-- The span of a binding pattern. -/
def BindingPattern.spanOf : BindingPattern → Span
  | .Ident i => i.span
  | .Object s => s
  | .Array s => s

/-- VariableKind from fajt_ast. -/
inductive VariableKind
  | Var | Let | Const
deriving DecidableEq, Repr

/-- VariableDeclaration, modelled from the spec §4.4.5: a binding pattern
with an optional initializer. -/
structure VariableDeclaration where
  span : Span
  pattern : BindingPattern
  initializer : Option Expr
deriving DecidableEq, Repr

/-- StmtVariable from fajt_ast (span, kind, declarations). -/
structure StmtVariable where
  span : Span
  kind : VariableKind
  declarations : List VariableDeclaration
deriving DecidableEq, Repr

/-- ForBinding from fajt_ast (span, kind, binding), as built by
parse_for_declaration in src/parser/src/iteration.rs. -/
structure ForBinding where
  span : Span
  kind : VariableKind
  binding : BindingPattern
deriving DecidableEq, Repr

/-- ForDeclaration from fajt_ast; the assignment-pattern payload is outside
the verified fragment. -/
inductive ForDeclaration
  | Declaration (b : ForBinding)
  | AssignmentPattern (span : Span)
  | Expr (e : Expr)
deriving DecidableEq, Repr

/-- ForInit from fajt_ast. -/
inductive ForInit
  | Declaration (d : StmtVariable)
  | Expr (e : Expr)
deriving DecidableEq, Repr

/-- Stmt from fajt_ast, restricted to the statements the claims touch
(empty statement and the three for forms; StmtForOf carries the
asynchronous flag). -/
inductive Stmt
  | Empty (span : Span)
  | Expr (span : Span) (e : Expr)
  | For (span : Span) (init : Option ForInit) (test : Option Expr)
        (update : Option Expr) (body : Stmt)
  | ForIn (span : Span) (left : ForDeclaration) (right : Expr) (body : Stmt)
  | ForOf (span : Span) (left : ForDeclaration) (right : Expr) (body : Stmt)
         (asynchronous : Bool)
deriving DecidableEq, Repr

/-- NamedExport from fajt_ast, as built by parse_export_specifier in
src/parser/src/parser/module.rs: the exported name and, when aliased, the
local identifier it is an alias of. -/
structure NamedExport where
  span : Span
  name : Ident
  alias_of : Option Ident
deriving DecidableEq, Repr

/-- Modelled from the spec: fajt_common::io::PeekReader over a token
stream is not among the staged sources (§4.3 TokenReader: a one-token
lookahead buffer with current/peek/consume and rewind). The buffer is a
list of the lexer's tokens with a cursor. -/
structure TokenStream where
  tokens : List token.Token
  pos : Nat
deriving DecidableEq, Repr

/-- PeekReader::position — modelled from the PeekRead impl in
src/lexer/src/token.rs, which advances the reader position to
`token.span.end` of each read token: the end of the last consumed token,
0 before any token was consumed. -/
def TokenStream.readerPosition (st : TokenStream) : Nat :=
  if st.pos = 0 then 0
  else match st.tokens.get? (st.pos - 1) with
    | some t => t.span.stop
    | none => 0

/-- Parser::current (src/parser/src/lib.rs): the token under the cursor,
or an end-of-stream error. -/
def TokenStream.currentTok (st : TokenStream) : Except Error token.Token :=
  match st.tokens.get? st.pos with
  | some t => .ok t
  | none => .error (Error.end_of_stream st.readerPosition)

/-- Parser::consume. -/
def TokenStream.consume (st : TokenStream) : Except Error (token.Token × TokenStream) :=
  match st.tokens.get? st.pos with
  | some t => .ok (t, { st with pos := st.pos + 1 })
  | none => .error (Error.end_of_stream st.readerPosition)

/-- Parser::peek. -/
def TokenStream.peek (st : TokenStream) : Option token.Token := st.tokens.get? (st.pos + 1)

/-- Parser::position: the current token's span start, else the reader
position. -/
def TokenStream.position (st : TokenStream) : Nat :=
  match st.currentTok with
  | .ok t => t.span.start
  | .error _ => st.readerPosition

/-- Parser::span_from. -/
def TokenStream.span_from (st : TokenStream) (start : Nat) : Span :=
  Span.new start st.readerPosition

/-- Parser::current_matches. -/
def TokenStream.current_matches (st : TokenStream) (v : token.TokenValue) : Bool :=
  match st.currentTok with
  | .ok t => t.value == v
  | .error _ => false

/-- Parser::peek_matches. -/
def TokenStream.peek_matches (st : TokenStream) (v : token.TokenValue) : Bool :=
  match st.peek with
  | some t => t.value == v
  | none => false

/-- Parser::maybe_consume. -/
def TokenStream.maybe_consume (st : TokenStream) (v : token.TokenValue) :
    Except Error (Bool × TokenStream) :=
  if st.current_matches v then
    match st.consume with
    | .ok (_, st') => .ok (true, st')
    | .error e => .error e
  else .ok (false, st)

/-- Parser::consume_assert. -/
def TokenStream.consume_assert (st : TokenStream) (expected : token.TokenValue) :
    Except Error (token.Token × TokenStream) := do
  let (t, st') ← st.consume
  if t.value == expected then .ok (t, st')
  else .error (Error.expected_other_token t expected)

/-- Modelled from the spec: PeekReader::rewind_to resets the underlying
lexer to the start of the given token and reloads the lookahead window
(§4.3); over an already-lexed stream that is the first token starting at
that byte offset. -/
def TokenStream.rewind_to (st : TokenStream) (t : token.Token) : Except Error TokenStream :=
  .ok { st with pos := st.tokens.findIdx (fun x => x.span.start == t.span.start) }

/-- The is_identifier helper at the bottom of src/parser/src/lib.rs. -/
def is_identifier_token (t : Option token.Token) (kctx : token.KeywordContext) : Bool :=
  match t with
  | some { value := .Identifier _, .. } => true
  | some { value := .Keyword k, .. } => k.is_allows_as_identifier kctx
  | _ => false

/-- Parser::is_identifier. -/
def is_identifier (ctx : Context) (st : TokenStream) : Bool :=
  is_identifier_token st.currentTok.toOption ctx.keyword_context

/-- Parser::parse_identifier (src/parser/src/lib.rs). The staged token.rs
spells the keyword predicate is_allows_as_identifier (the caller writes
is_allowed_as_identifier in a later revision). -/
def parse_identifier (ctx : Context) (st : TokenStream) :
    Except Error (Ident × TokenStream) := do
  let (t, st') ← st.consume
  match t.value with
  | .Identifier s => .ok (Ident.new s t.span, st')
  | .Keyword k =>
    if k.is_allows_as_identifier ctx.keyword_context then
      .ok (Ident.new k.toStr t.span, st')
    else .error (Error.forbidden_identifier k.toStr t.span)
  | _ => .error (Error.expected_ident t)

/-! Embedding of src/parser/src/cover.rs. -/

/-- Which production a cover parse resolves to (the source then parses it:
parse_arrow_function_expr, parse_parenthesized_expr,
parse_async_arrow_function_expr or parse_covered_call_expression). -/
inductive CoverProduction
  | ArrowParameters
  | ParenthesizedExpression
  | AsyncArrowHead
  | CallExpression
deriving DecidableEq, Repr

/-- Modelled from the spec: parse_template_literal_parts (§4.4.1 requires
the template sub-parser so that a parenthesis inside `${...}` cannot fool
the matcher) is outside the modelled fragment; a scan that meets a
template head reports an error instead of completing, so no theorem can
mistake the fragment boundary for source behaviour. -/
def parse_template_literal_parts (st : TokenStream) : Except Error TokenStream :=
  .error (Error.syntax_error "template literal parsing is outside the modelled fragment"
    (Span.new st.readerPosition st.readerPosition))

/-- The loop of skip_until_closing_parenthesis (src/parser/src/cover.rs
lines 57–88): depth-counting over consumed tokens, stopping after the `)`
that returns the depth to zero. In this token-stream model consume fails
only at end of stream, so the source's arm that skips a lexer
UnrecognizedCodePoint error is unreachable and every consume error is
returned as the source returns non-lexer errors. The fuel counts consumed
tokens; its exhaustion is reported as a distinguished error. -/
def skip_until_loop : Nat → TokenStream → Int → Except Error TokenStream
  | 0, st, _ =>
    .error (Error.syntax_error "scan fuel exhausted (model artefact)"
      (Span.new st.readerPosition st.readerPosition))
  | fuel + 1, st, depth =>
    match st.consume with
    | .ok (t, st') =>
      match t.value with
      | .Punct .ParenOpen => skip_until_loop fuel st' (depth + 1)
      | .Punct .ParenClose =>
        if depth - 1 = 0 then .ok st' else skip_until_loop fuel st' (depth - 1)
      | .TemplateHead _ =>
        match parse_template_literal_parts st' with
        | .ok st'' => skip_until_loop fuel st'' depth
        | .error e => .error e
      | _ => skip_until_loop fuel st' depth
    | .error e => .error e

/-- skip_until_closing_parenthesis: starts at depth 0 (tokens before the
first `(` are skipped too) with fuel covering the whole remaining stream. -/
def skip_until_closing_parenthesis (st : TokenStream) : Except Error TokenStream :=
  skip_until_loop (st.tokens.length - st.pos + 1) st 0

/-- token_after_parenthesis (src/parser/src/cover.rs lines 45–53): clone
the current token, skip to the matching `)`, take the following token if
any (`self.consume().ok()`), and rewind to the saved token. -/
def token_after_parenthesis (st : TokenStream) :
    Except Error (Option token.Token × TokenStream) := do
  let start ← st.currentTok
  let st1 ← skip_until_closing_parenthesis st
  let (tok, st2) :=
    match st1.consume with
    | .ok (t, st2) => (some t, st2)
    | .error _ => (none, st1)
  let st3 ← st2.rewind_to start
  .ok (tok, st3)

/-- parse_cover_parenthesized_and_arrow_parameters (src/parser/src/cover.rs
lines 17–24): arrow parameters iff the token after `)` is `=>` and not the
first token on its line. -/
def parse_cover_parenthesized_and_arrow_parameters (st : TokenStream) :
    Except Error (CoverProduction × TokenStream) := do
  let (after_token, st') ← token_after_parenthesis st
  match after_token with
  | some t =>
    if t.value == .Punct .EqualGreater && !t.first_on_line then
      .ok (.ArrowParameters, st')
    else .ok (.ParenthesizedExpression, st')
  | none => .ok (.ParenthesizedExpression, st')

/-- parse_cover_call_or_async_arrow_head (src/parser/src/cover.rs lines
27–34): async arrow head iff the token after `)` is `=>` — with no
first_on_line test in this production. -/
def parse_cover_call_or_async_arrow_head (st : TokenStream) :
    Except Error (CoverProduction × TokenStream) := do
  let (after_token, st') ← token_after_parenthesis st
  match after_token with
  | some t =>
    if t.value == .Punct .EqualGreater then .ok (.AsyncArrowHead, st')
    else .ok (.CallExpression, st')
  | none => .ok (.CallExpression, st')

/-! Embedding of src/parser/src/iteration.rs (the for-statement family).
The sub-parsers it calls for expressions, statements, bindings and
variable declarations live in files that are not among the staged sources
(expr.rs, stmt.rs, variable.rs, the mature binding.rs and
static_semantics.rs); they are modelled from the spec, restricted to the
fragment the claims exercise: identifier expressions, identifier binding
patterns, single uninitialized declarations and the empty statement. -/

/-- Modelled from the spec: expression parsing (§4.4.2) restricted to a
single identifier reference. -/
def parse_expr (ctx : Context) (st : TokenStream) : Except Error (Expr × TokenStream) := do
  let (ident, st') ← parse_identifier ctx st
  .ok (.IdentRef ident, st')

/-- Modelled from the spec: statement parsing (§4.4.3) restricted to the
empty statement `;`. -/
def parse_stmt (ctx : Context) (st : TokenStream) : Except Error (Stmt × TokenStream) := do
  let t ← st.currentTok
  if t.value == .Punct .SemiColon then
    match st.consume with
    | .ok (_, st') => .ok (.Empty t.span, st')
    | .error e => .error e
  else .error (Error.unexpected_token t)

/-- Modelled from the spec: binding patterns (§4.4.5) restricted to a
binding identifier. -/
def parse_binding_pattern (ctx : Context) (st : TokenStream) :
    Except Error (BindingPattern × TokenStream) := do
  let t ← st.currentTok
  if is_identifier ctx st then
    let (ident, st') ← parse_identifier ctx st
    .ok (.Ident ident, st')
  else .error (Error.unexpected_token t)

/-- Modelled from the spec: destructuring assignment patterns are outside
the fragment. -/
def parse_assignment_pattern (ctx : Context) (st : TokenStream) :
    Except Error (ForDeclaration × TokenStream) :=
  .error (Error.syntax_error "assignment patterns are outside the modelled fragment"
    (Span.new st.readerPosition st.readerPosition))

/-- Modelled from the spec: LeftHandSideExpression parsing restricted to an
identifier reference. -/
def parse_left_hand_side_expr (ctx : Context) (st : TokenStream) :
    Except Error (Expr × TokenStream) := do
  let (ident, st') ← parse_identifier ctx st
  .ok (.IdentRef ident, st')

/-- Modelled from the spec: the assignment-target early error (§4.5) —
`arguments`/`eval` may not be targets in strict mode, identifier and
member expressions are simple targets, everything else is invalid. The
source's ExprSemantics::early_errors_left_hand_side_expr lives in
static_semantics.rs, which is not among the staged sources. -/
def early_errors_left_hand_side_expr (ctx : Context) (e : Expr) : Except Error Unit :=
  match e with
  | .IdentRef i =>
    if ctx.is_strict && (i.name == "arguments" || i.name == "eval") then
      .error (Error.syntax_error "Unexpected `eval` or `arguments` in strict mode" i.span)
    else .ok ()
  | .Member _ _ _ => .ok ()
  | _ =>
    .error (Error.syntax_error "Invalid left-hand side expression"
      (Span.new 0 0))

/-- Modelled from the spec: peek_matches_lexical_binding (mature stmt.rs,
not staged) — after `let`, a lexical binding starts with an identifier,
`[` or `{`. -/
def peek_matches_lexical_binding (ctx : Context) (st : TokenStream) : Bool :=
  is_identifier_token st.peek ctx.keyword_context ||
  st.peek_matches (.Punct .BraceOpen) || st.peek_matches (.Punct .BracketOpen)

/-- parse_optional_variable_kind (src/parser/src/iteration.rs lines
261–277): var / let-with-lexical-binding / const, consuming the keyword
when one matched. -/
def parse_optional_variable_kind (ctx : Context) (st : TokenStream) :
    Except Error (Option VariableKind × TokenStream) := do
  let t ← st.currentTok
  let variable_kind : Option VariableKind :=
    if t.value == .Keyword .Var then some .Var
    else if t.value == .Keyword .Let && peek_matches_lexical_binding ctx st then some .Let
    else if t.value == .Keyword .Const then some .Const
    else none
  if variable_kind.isSome then
    match st.consume with
    | .ok (_, st') => .ok (variable_kind, st')
    | .error e => .error e
  else .ok (variable_kind, st)

/-- Modelled from the spec: parse_variable_declarations (variable.rs, not
staged; §4.4.5) restricted to a single identifier declaration with no
initializer — exactly what a `for (const k of …)` head contains. -/
def parse_variable_declarations (ctx : Context) (st : TokenStream) :
    Except Error (List VariableDeclaration × TokenStream) := do
  let (pattern, st') ← parse_binding_pattern ctx st
  .ok ([{ span := pattern.spanOf, pattern := pattern, initializer := none }], st')

/-- parse_for_declaration (src/parser/src/iteration.rs lines 193–218). -/
def parse_for_declaration (ctx : Context) (st : TokenStream) :
    Except Error (ForDeclaration × TokenStream) := do
  let span_start := st.position
  let (variable_kind, st1) ← parse_optional_variable_kind ctx st
  match variable_kind with
  | some kind => do
    let (binding, st2) ← parse_binding_pattern ctx st1
    .ok (.Declaration { span := st2.span_from span_start, kind := kind, binding := binding }, st2)
  | none => do
    let t ← st1.currentTok
    if t.value == .Punct .BraceOpen || t.value == .Punct .BracketOpen then
      parse_assignment_pattern ctx st1
    else do
      let (expr, st2) ← parse_left_hand_side_expr ctx st1
      match early_errors_left_hand_side_expr ctx expr with
      | .ok _ => .ok (.Expr expr, st2)
      | .error e => .error e

/-- parse_for_init_variable_declaration (src/parser/src/iteration.rs lines
244–259): declarations parsed with In cleared. -/
def parse_for_init_variable_declaration (ctx : Context) (st : TokenStream)
    (span_start : Nat) (kind : VariableKind) : Except Error (ForInit × TokenStream) := do
  let (declarations, st') ← parse_variable_declarations (ctx.with_in false) st
  .ok (.Declaration { span := st'.span_from span_start, kind := kind,
                      declarations := declarations }, st')

/-- parse_for_init (src/parser/src/iteration.rs lines 230–242). -/
def parse_for_init (ctx : Context) (st : TokenStream) :
    Except Error (ForInit × TokenStream) := do
  let span_start := st.position
  let (variable_kind, st1) ← parse_optional_variable_kind ctx st
  match variable_kind with
  | some kind => parse_for_init_variable_declaration ctx st1 span_start kind
  | none => do
    let (e, st2) ← parse_expr (ctx.with_in false) st1
    .ok (.Expr e, st2)

/-- parse_optional_for_init (src/parser/src/iteration.rs lines 222–228). -/
def parse_optional_for_init (ctx : Context) (st : TokenStream) :
    Except Error (Option ForInit × TokenStream) :=
  if st.current_matches (.Punct .SemiColon) then .ok (none, st)
  else
    match parse_for_init ctx st with
    | .ok (i, st') => .ok (some i, st')
    | .error e => .error e

/-- try_parse_for (src/parser/src/iteration.rs lines 85–124): Ok(None)
when the head is not a C-style `for`; an awaited head that reaches the
first `;` is the "'for await' loops must be used with 'of'" SyntaxError. -/
def try_parse_for (ctx : Context) (st : TokenStream) (span_start : Nat)
    (asynchronous : Bool) : Except Error (Option Stmt × TokenStream) :=
  match parse_optional_for_init ctx st with
  | .error _ => .ok (none, st)
  | .ok (init, st1) =>
    match st1.maybe_consume (.Punct .SemiColon) with
    | .error e => .error e
    | .ok (consumedSemi, st2) =>
      if !consumedSemi then .ok (none, st2)
      else if asynchronous then
        .error (Error.syntax_error "'for await' loops must be used with 'of'"
          (st2.span_from span_start))
      else do
        let (test, st3) ←
          if !st2.current_matches (.Punct .SemiColon) then do
            let (e, st') ← parse_expr (ctx.with_in true) st2
            pure (some e, st')
          else pure (none, st2)
        let (_, st4) ← st3.consume_assert (.Punct .SemiColon)
        let (update, st5) ←
          if !st4.current_matches (.Punct .ParenClose) then do
            let (e, st') ← parse_expr (ctx.with_in true) st4
            pure (some e, st')
          else pure (none, st4)
        let (_, st6) ← st5.consume_assert (.Punct .ParenClose)
        let (body, st7) ← parse_stmt ctx st6
        .ok (some (.For (st7.span_from span_start) init test update body), st7)

/-- parse_for_in (src/parser/src/iteration.rs lines 150–166). -/
def parse_for_in (ctx : Context) (st : TokenStream) (span_start : Nat)
    (left : ForDeclaration) : Except Error (Stmt × TokenStream) := do
  let (_, st1) ← st.consume_assert (.Keyword .In)
  let (right, st2) ← parse_expr (ctx.with_in true) st1
  let (_, st3) ← st2.consume_assert (.Punct .ParenClose)
  let (body, st4) ← parse_stmt ctx st3
  .ok (.ForIn (st4.span_from span_start) left right body, st4)

/-- parse_for_of (src/parser/src/iteration.rs lines 168–190). -/
def parse_for_of (ctx : Context) (st : TokenStream) (span_start : Nat)
    (left : ForDeclaration) (asynchronous : Bool) : Except Error (Stmt × TokenStream) := do
  let (_, st1) ← st.consume_assert (.Keyword .Of)
  let (right, st2) ← parse_expr (ctx.with_in true) st1
  let (_, st3) ← st2.consume_assert (.Punct .ParenClose)
  let (body, st4) ← parse_stmt ctx st3
  .ok (.ForOf (st4.span_from span_start) left right body asynchronous, st4)

/-- parse_for_in_of (src/parser/src/iteration.rs lines 128–148): `of` is
always allowed, `in` is the same SyntaxError when the head was awaited. -/
def parse_for_in_of (ctx : Context) (st : TokenStream) (span_start : Nat)
    (asynchronous : Bool) : Except Error (Stmt × TokenStream) := do
  let (declaration, st1) ← parse_for_declaration ctx st
  let t ← st1.currentTok
  if t.value == .Keyword .Of then
    parse_for_of ctx st1 span_start declaration asynchronous
  else if t.value == .Keyword .In then
    if asynchronous then
      .error (Error.syntax_error "'for await' loops must be used with 'of'"
        (st1.span_from span_start))
    else parse_for_in ctx st1 span_start declaration
  else
    match st1.consume with
    | .ok (tok, _) => .error (Error.unexpected_token tok)
    | .error e => .error e

/-- parse_for_stmt (src/parser/src/iteration.rs lines 65–80): `await` is
looked for only when the context has Await (the Rust `&&` short-circuits,
so without Await the keyword is left in place for consume_assert `(` to
trip over); then the C-style attempt, rewind, and the in/of parse. -/
def parse_for_stmt (ctx : Context) (st : TokenStream) :
    Except Error (Stmt × TokenStream) := do
  let span_start := st.position
  let (_, st1) ← st.consume_assert (.Keyword .For)
  let (asynchronous, st2) ←
    if ctx.is_await then st1.maybe_consume (.Keyword .Await)
    else pure (false, st1)
  let (_, st3) ← st2.consume_assert (.Punct .ParenOpen)
  let start_token ← st3.currentTok
  match try_parse_for ctx st3 span_start asynchronous with
  | .error e => .error e
  | .ok (some stmt, st4) => .ok (stmt, st4)
  | .ok (none, st4) => do
    let st5 ← st4.rewind_to start_token
    parse_for_in_of ctx st5 span_start asynchronous

/-! Embedding of the context handling in src/parser/src/parser/function.rs. -/

/-- Modelled from the spec: ContextModify (the parser module root of that
revision is not staged; §4.4 "To change a parameter for a sub-parse, the
parser creates a derived context value") — a partial overlay applied to a
Context. -/
structure ContextModify where
  is_await : Option Bool
  is_yield : Option Bool
  is_in : Option Bool
  is_strict : Option Bool
  is_default : Option Bool
deriving DecidableEq, Repr

/-- ContextModify::new(): modifies nothing. -/
def ContextModify.new : ContextModify := ⟨none, none, none, none, none⟩

/-- ContextModify::set_await. -/
def ContextModify.set_await (m : ContextModify) (b : Bool) : ContextModify :=
  { m with is_await := some b }

/-- ContextModify::set_yield. -/
def ContextModify.set_yield (m : ContextModify) (b : Bool) : ContextModify :=
  { m with is_yield := some b }

/-- ContextModify::set_in. -/
def ContextModify.set_in (m : ContextModify) (b : Bool) : ContextModify :=
  { m with is_in := some b }

/-- Applying a ContextModify to the enclosing context (with_context). -/
def ContextModify.apply (m : ContextModify) (ctx : Context) : Context :=
  { is_await := m.is_await.getD ctx.is_await
    is_yield := m.is_yield.getD ctx.is_yield
    is_in := m.is_in.getD ctx.is_in
    is_strict := m.is_strict.getD ctx.is_strict
    is_default := m.is_default.getD ctx.is_default }

/-- The context under which parse_function_declaration
(src/parser/src/parser/function.rs lines 147–156) parses the function's
parameters and body: `ContextModify::new().set_yield(false).set_await(false)`
applied to the enclosing context, whether or not the declaration is a
generator (`function*`). parse_function_body (lines 239–269) threads this
context unchanged; the directive prologue it collects is never consulted
for Strict. -/
def function_declaration_body_context (ctx : Context) : Context :=
  ((ContextModify.new.set_yield false).set_await false).apply ctx

/-- The context for parse_async_function_declaration (lines 158–171):
set_yield(false).set_await(true), again ignoring the generator flag. -/
def async_function_declaration_body_context (ctx : Context) : Context :=
  ((ContextModify.new.set_yield false).set_await true).apply ctx

/-- parse_function_expr (lines 100–119) parses its body with no context
modification at all. -/
def function_expr_body_context (ctx : Context) : Context := ctx

/-- parse_async_function_expr (lines 122–144) also parses its body under
the unmodified enclosing context. -/
def async_function_expr_body_context (ctx : Context) : Context := ctx

/-- parse_arrow_function_expr (lines 21–44): body under the enclosing
context. -/
def arrow_function_body_context (ctx : Context) : Context := ctx

/-- parse_async_arrow_function_expr (lines 49–79): body under
`ContextModify::new().set_await(true)`. -/
def async_arrow_function_body_context (ctx : Context) : Context :=
  (ContextModify.new.set_await true).apply ctx

/-- The body context the claim asserts (written from the spec §4.4.6
sentence, for comparison with the functions above): Await = async,
Yield = generator, Default cleared, Strict = enclosing strict OR the
body's directive prologue contains "use strict". -/
def claimed_body_context (ctx : Context) (asynchronous generator : Bool)
    (prologue_use_strict : Bool) : Context :=
  { is_await := asynchronous
    is_yield := generator
    is_in := ctx.is_in
    is_strict := ctx.is_strict || prologue_use_strict
    is_default := false }

/-! Embedding of src/parser/src/early_error.rs (validate_delete_argument). -/

/-- validate_delete_argument (src/parser/src/early_error.rs lines 30–49):
outside strict mode everything passes; in strict mode an identifier
reference — also through any number of parentheses — is the
"Delete of an unqualified identifier in strict mode" SyntaxError carrying
the identifier's span. -/
def validate_delete_argument (ctx : Context) : Expr → Except Error Unit
  | .IdentRef ident =>
    if !ctx.is_strict then .ok ()
    else
      .error (Error.syntax_error "Delete of an unqualified identifier in strict mode"
        ident.span)
  | .Parenthesized _ expression =>
    if !ctx.is_strict then .ok ()
    else validate_delete_argument ctx expression
  | _ => .ok ()

/-- An expression wrapped in a sequence of parentheses (one Parenthesized
node per listed span). -/
def wrapParens : List Span → Expr → Expr
  | [], e => e
  | s :: rest, e => .Parenthesized s (wrapParens rest e)

/-! Embedding of parse_export_specifier from src/parser/src/parser/module.rs. -/

/-- parse_export_specifier (src/parser/src/parser/module.rs lines 212–230):
parse the local name; on `as`, parse the alias and swap — the exported
(public) name goes to `name`, the local identifier to `alias_of`
(`std::mem::replace(&mut name, alias)`). -/
def parse_export_specifier (ctx : Context) (st : TokenStream) :
    Except Error (NamedExport × TokenStream) := do
  let span_start := st.position
  let (name0, st1) ← parse_identifier ctx st
  let (hasAlias, st2) ← st1.maybe_consume (.Keyword .As)
  let (aliasOpt, st3) ←
    if hasAlias then do
      let (a, st') ← parse_identifier ctx st2
      pure (some a, st')
    else pure (none, st2)
  let (name, alias_of) :=
    match aliasOpt with
    | some aliasIdent => (aliasIdent, some name0)
    | none => (name0, none)
  .ok ({ span := st3.span_from span_start, name := name, alias_of := alias_of }, st3)

end parser

namespace fixtures

/-- A token with the given value and span, not first on its line. -/
def tok (v : token.TokenValue) (a b : Nat) : token.Token := ⟨v, false, ⟨a, b⟩⟩

/-- A context with Await set (e.g. the body of an async function). -/
def awaitCtx : parser.Context := ⟨true, false, false, false, false⟩

/-- The `for` keyword token of the fixture streams. -/
def forTok : token.Token := tok (.Keyword .For) 0 3

/-- The `await` keyword token of the fixture streams. -/
def awaitTok : token.Token := tok (.Keyword .Await) 4 9

/-- The token stream of `for await (const k of xs) ;`. -/
def forAwaitOfStream : parser.TokenStream :=
  ⟨[forTok, awaitTok, tok (.Punct .ParenOpen) 10 11, tok (.Keyword .Const) 12 17,
    tok (.Identifier "k") 18 19, tok (.Keyword .Of) 20 22, tok (.Identifier "xs") 23 25,
    tok (.Punct .ParenClose) 25 26, tok (.Punct .SemiColon) 27 28], 0⟩

/-- The token stream of `for await (x; y; z) ;` — an awaited C-style head. -/
def forAwaitSemiStream : parser.TokenStream :=
  ⟨[forTok, awaitTok, tok (.Punct .ParenOpen) 10 11, tok (.Identifier "x") 11 12,
    tok (.Punct .SemiColon) 12 13, tok (.Identifier "y") 13 14,
    tok (.Punct .SemiColon) 14 15, tok (.Identifier "z") 15 16,
    tok (.Punct .ParenClose) 16 17, tok (.Punct .SemiColon) 18 19], 0⟩

/-- The token stream of `for await (x in y) ;` — an awaited for-in head. -/
def forAwaitInStream : parser.TokenStream :=
  ⟨[forTok, awaitTok, tok (.Punct .ParenOpen) 10 11, tok (.Identifier "x") 11 12,
    tok (.Keyword .In) 13 15, tok (.Identifier "y") 16 17,
    tok (.Punct .ParenClose) 17 18, tok (.Punct .SemiColon) 19 20], 0⟩

/-- The token stream of `( a ) =>` with `=>` on the same line. -/
def coverArrowStream : parser.TokenStream :=
  ⟨[tok (.Punct .ParenOpen) 0 1, tok (.Identifier "a") 1 2,
    tok (.Punct .ParenClose) 2 3, tok (.Punct .EqualGreater) 4 6], 0⟩

/-- The `=>` token of coverNewlineStream: first on its line. -/
def arrowFolTok : token.Token := ⟨.Punct .EqualGreater, true, ⟨4, 6⟩⟩

/-- The token stream of `( )` followed by a newline and `=>`. -/
def coverNewlineStream : parser.TokenStream :=
  ⟨[tok (.Punct .ParenOpen) 0 1, tok (.Punct .ParenClose) 2 3, arrowFolTok], 0⟩

end fixtures

/-! Helper lemmas. -/

theorem charIndicesAux_length (o : Nat) (s : List Char) :
    (charIndicesAux o s).length = s.length := by
  induction s generalizing o with
  | nil => rfl
  | cons c cs ih => simp [charIndicesAux, ih]

theorem charIndices_length (s : List Char) : (charIndices s).length = s.length :=
  charIndicesAux_length 0 s

theorem charIndicesAux_getElem? (o : Nat) (s : List Char) (n : Nat) :
    (charIndicesAux o s)[n]? = (s[n]?).map (fun c => (o + utf8Len (s.take n), c)) := by
  induction s generalizing o n with
  | nil => simp [charIndicesAux]
  | cons c cs ih =>
    cases n with
    | zero => simp [charIndicesAux, utf8Len]
    | succ m =>
      simp only [charIndicesAux, List.getElem?_cons_succ, List.take_succ_cons, ih]
      cases cs[m]? <;> simp [utf8Len, Nat.add_assoc]

theorem charIndices_getElem? (s : List Char) (n : Nat) :
    (charIndices s)[n]? = (s[n]?).map (fun c => (utf8Len (s.take n), c)) := by
  simpa using charIndicesAux_getElem? 0 s n

namespace reader

theorem Reader.new_eq_readerAt (c : Char) (cs : List Char) :
    Reader.new (c :: cs) = .ok (readerAt (c :: cs) 0) := by
  show Except.ok _ = _
  simp only [readerAt, charIndices, charIndicesAux]
  congr 1
  simp [List.drop_one, List.head?_drop]

theorem advanceN_succ (r : Reader) (n : Nat) :
    advanceN r (n + 1) = (advanceN r n).advance := by
  induction n generalizing r with
  | zero => rfl
  | succ k ih =>
    rw [advanceN, ih r.advance, advanceN]

theorem readerAt_advance (s : List Char) (n : Nat) (h : n + 1 < s.length) :
    (readerAt s n).advance = readerAt s (n + 1) := by
  have hlen : n + 1 < (charIndices s).length := by rwa [charIndices_length]
  have hp : (charIndices s)[n + 1]? = some ((charIndices s)[n + 1]) :=
    List.getElem?_eq_getElem hlen
  have hnext : (readerAt s n).next = some ((charIndices s)[n + 1]) := by
    simp [readerAt, List.head?_drop, hp]
  simp only [Reader.advance, Reader.nextResult, hnext]
  simp only [readerAt, List.tail_drop, List.head?_drop]
  have h1 : n + 2 + 1 = n + 1 + 2 := by omega
  have h2 : n + 2 = n + 1 + 1 := by omega
  rw [hp]
  simp [h1, h2]

theorem advanceN_readerAt (s : List Char) (n : Nat) (h : n < s.length) :
    advanceN (readerAt s 0) n = readerAt s n := by
  induction n with
  | zero => rfl
  | succ m ih =>
    have hm : m < s.length := Nat.lt_of_succ_lt h
    rw [advanceN_succ, ih hm, readerAt_advance s m h]

end reader

namespace parser

theorem currentTok_ok {st : TokenStream} {t : token.Token}
    (h : st.currentTok = .ok t) : st.tokens.get? st.pos = some t := by
  unfold TokenStream.currentTok at h
  cases hg : st.tokens.get? st.pos with
  | some u => rw [hg] at h; cases h; rfl
  | none => rw [hg] at h; cases h

theorem consume_ok {st : TokenStream} {t : token.Token} {st' : TokenStream}
    (h : st.consume = .ok (t, st')) :
    st'.tokens = st.tokens ∧ st'.pos = st.pos + 1 ∧ st.tokens.get? st.pos = some t := by
  unfold TokenStream.consume at h
  cases hg : st.tokens.get? st.pos with
  | some u => rw [hg] at h; cases h; exact ⟨rfl, rfl, rfl⟩
  | none => rw [hg] at h; cases h

theorem skip_until_loop_tokens (fuel : Nat) :
    ∀ (st : TokenStream) (d : Int) (st1 : TokenStream),
      skip_until_loop fuel st d = .ok st1 → st1.tokens = st.tokens := by
  induction fuel with
  | zero => intro st d st1 h; simp [skip_until_loop] at h
  | succ n ih =>
    intro st d st1 h
    unfold skip_until_loop at h
    cases hc : st.consume with
    | error e => rw [hc] at h; cases h
    | ok pr =>
      obtain ⟨t, st'⟩ := pr
      rw [hc] at h
      obtain ⟨htoks, -, -⟩ := consume_ok hc
      simp only at h
      split at h
      · exact (ih st' _ st1 h).trans htoks
      · split at h
        · cases h; exact htoks
        · exact (ih st' _ st1 h).trans htoks
      · unfold parse_template_literal_parts at h; cases h
      · exact (ih st' _ st1 h).trans htoks

theorem skip_until_closing_parenthesis_tokens {st st1 : TokenStream}
    (h : skip_until_closing_parenthesis st = .ok st1) : st1.tokens = st.tokens :=
  skip_until_loop_tokens _ st 0 st1 h

theorem except_bind_ok {ε α β : Type} (x : Except ε α) (f : α → Except ε β) (b : β) :
    (x >>= f) = .ok b ↔ ∃ a, x = .ok a ∧ f a = .ok b := by
  cases x <;> simp [Bind.bind, Except.bind]

theorem findIdx_eq_of {α : Type} (p : α → Bool) :
    ∀ (l : List α) (i : Nat) (hi : i < l.length),
      p (l.get ⟨i, hi⟩) = true →
      (∀ j (hj : j < l.length), j < i → p (l.get ⟨j, hj⟩) = false) →
      l.findIdx p = i := by
  intro l
  induction l with
  | nil => intro i hi; simp at hi
  | cons a l ih =>
    intro i hi hp hb
    cases i with
    | zero => simp only [List.get] at hp; simp [List.findIdx_cons, hp]
    | succ m =>
      have ha : p a = false := hb 0 (by omega) (by omega)
      have hm : m < l.length := by simpa using hi
      have hrec : l.findIdx p = m := by
        refine ih m hm (by simpa using hp) ?_
        intro j hj hji
        simpa using hb (j + 1) (by omega) (by omega)
      simp [List.findIdx_cons, ha, hrec]

end parser

/-! Claim theorems. -/

/-- Validation of the lexer embedding against the repository's own unit
test lex_assignment_const (src/lexer/src/lib.rs): lexing
"const variable = 1;" yields exactly the four tokens with the spans the
test asserts. -/
theorem lexfile_matches_unit_test :
    lexfile.lexString "const variable = 1;"
      = .ok [⟨.Keyword .Const, (⟨0, 0⟩, ⟨0, 5⟩)⟩,
             ⟨.Identifier "variable", (⟨0, 6⟩, ⟨0, 14⟩)⟩,
             ⟨.Assign .None, (⟨0, 15⟩, ⟨0, 16⟩)⟩,
             ⟨.Number (.Integer 1 .Decimal), (⟨0, 17⟩, ⟨0, 18⟩)⟩] := rfl

/-- C1 (counterexample): constructing the reader of
src/lexer/src/reader.rs — or the lexer of src/lexer/src/lib.rs — on the
empty string does not succeed with `eof = true`: both fail with the
EndOfFile error, and the `parse` entry point, which calls
`Lexer::new(input).unwrap()`, panics on the empty string instead of
returning a Result. -/
theorem c1_empty_input_fails :
    reader.Reader.new ("".data) = .error .EndOfFile ∧
    lexfile.Lexer.new ("".data) = .error .EndOfFile ∧
    parse_lexer_construction "" = .panicked :=
  ⟨rfl, rfl, rfl⟩

/-- C1 (amended): reader and lexer construction on the empty string fails
with EndOfFile (and `parse`, which unwraps the lexer construction, panics
there); on every nonempty input, construction succeeds with `eof = false`,
positioned on the first scalar at position 0. -/
theorem c1_reader_construction :
    reader.Reader.new [] = .error .EndOfFile ∧
    lexfile.Lexer.new [] = .error .EndOfFile ∧
    parse_lexer_construction "" = .panicked ∧
    ∀ (c : Char) (cs : List Char), ∃ r, reader.Reader.new (c :: cs) = .ok r ∧
      r.end_of_file = false ∧ r.position = 0 ∧ r.current = (0, c) :=
  ⟨rfl, rfl, rfl, fun c cs =>
    ⟨reader.readerAt (c :: cs) 0, reader.Reader.new_eq_readerAt c cs, rfl, rfl,
      by simp [reader.readerAt, charIndices, charIndicesAux]⟩⟩

/-- C9 (counterexample): on the input "é!" (a two-byte scalar followed by
a one-byte scalar), one advance leaves the reader with position() = 1
while the byte offset of the current scalar is 2 — position() is not the
byte offset of `current`. -/
theorem c9_position_not_byte_offset :
    (reader.Reader.new ("é!".data)).map
        (fun r => ((reader.advanceN r 1).position, ((reader.advanceN r 1).current).1))
      = .ok (1, 2) ∧ (1 : Nat) ≠ 2 :=
  ⟨rfl, by decide⟩

/-- C9 (amended): after `n` in-bounds advances, position() equals `n` —
the scalar index of `current` — while the byte offset of `current` (the
first component of the window, which char_indices assigned) equals the
total UTF-8 size of the preceding scalars; the two agree only when every
preceding scalar is one byte. -/
theorem c9_position_scalar_index (s : List Char) (n : Nat) (h : n < s.length) :
    ∃ r, reader.Reader.new s = .ok r ∧
      (reader.advanceN r n).position = n ∧
      ((reader.advanceN r n).current).1 = utf8Len (s.take n) ∧
      s[n]? = some ((reader.advanceN r n).current).2 := by
  cases s with
  | nil => exact absurd h (by simp)
  | cons c cs =>
    refine ⟨reader.readerAt (c :: cs) 0, reader.Reader.new_eq_readerAt c cs, ?_, ?_, ?_⟩
    · rw [reader.advanceN_readerAt _ n h]; rfl
    · rw [reader.advanceN_readerAt _ n h]
      have hs : (c :: cs)[n]? = some ((c :: cs).get ⟨n, h⟩) := by
        simp [List.getElem?_eq_getElem h]
      simp [reader.readerAt, charIndices_getElem?, hs]
    · rw [reader.advanceN_readerAt _ n h]
      have hs : (c :: cs)[n]? = some ((c :: cs).get ⟨n, h⟩) := by
        simp [List.getElem?_eq_getElem h]
      simp [reader.readerAt, charIndices_getElem?, hs]

/-- C9 (witness): the amended statement evaluated on "é!" at n = 1. -/
theorem c9_position_scalar_index_witness :
    ∃ r, reader.Reader.new ("é!".data) = .ok r ∧
      (reader.advanceN r 1).position = 1 ∧
      ((reader.advanceN r 1).current).1 = utf8Len (("é!".data).take 1) ∧
      ("é!".data)[1]? = some ((reader.advanceN r 1).current).2 :=
  c9_position_scalar_index ("é!".data) 1 (by decide)

/-- C4 (code evaluated at the failing inputs): lexing "?" — an
unrecognized code point — reaches the `unimplemented!` panic instead of
an UnrecognizedCodePoint error, and lexing "1" — end of input in the
middle of a number token — reaches the `.unwrap()` panic on
`reader.next()` instead of a reportable lexer error. -/
theorem c4_lexer_panics :
    lexfile.lexString "?" = .panicked ∧ lexfile.lexString "1" = .panicked :=
  ⟨rfl, rfl⟩

/-- C5 (code evaluated at the failing input): lexing "a;b;" succeeds with
two identifier tokens, but the semicolons were skipped as if whitespace
(`TODO handle semi colon` in skip_whitespaces), so the concatenation of
the token slices interleaved with the whitespace between them rebuilds
"ab", not "a;b;". -/
theorem c5_roundtrip_fails :
    lexfile.lexString "a;b;"
      = .ok [⟨.Identifier "a", (⟨0, 0⟩, ⟨0, 1⟩)⟩, ⟨.Identifier "b", (⟨0, 2⟩, ⟨0, 3⟩)⟩] ∧
    lexfile.reconstruct ("a;b;".data)
        [⟨.Identifier "a", (⟨0, 0⟩, ⟨0, 1⟩)⟩, ⟨.Identifier "b", (⟨0, 2⟩, ⟨0, 3⟩)⟩]
      = "ab".data ∧
    "ab".data ≠ "a;b;".data :=
  ⟨rfl, rfl, by decide⟩

/-- C2 (counterexample): on the stream `( )` followed by a `=>` that is
the first token on a new line, parse_cover_call_or_async_arrow_head
resolves to the async-arrow production even though the token after the
`)` is first on its line — the claim's "for both cover productions …
if and only if … not the first token on a new line" fails for the
`async (` cover. -/
theorem c2_async_cover_ignores_newline :
    (parser.parse_cover_call_or_async_arrow_head fixtures.coverNewlineStream).map Prod.fst
      = .ok .AsyncArrowHead ∧
    (parser.token_after_parenthesis fixtures.coverNewlineStream).map Prod.fst
      = .ok (some fixtures.arrowFolTok) ∧
    fixtures.arrowFolTok.first_on_line = true :=
  ⟨rfl, rfl, rfl⟩

/-- C2 (amended): given the token after the matching `)`, the bare
parenthesis cover resolves to ArrowParameters iff that token is `=>` and
not the first token on a new line; the `async (` cover resolves to the
async-arrow production iff that token is `=>`, with no new-line
restriction. -/
theorem c2_cover_decision (st : parser.TokenStream) (after : token.Token)
    (st' : parser.TokenStream)
    (h : parser.token_after_parenthesis st = .ok (some after, st')) :
    ((parser.parse_cover_parenthesized_and_arrow_parameters st).map Prod.fst
        = .ok .ArrowParameters
      ↔ after.value = .Punct .EqualGreater ∧ after.first_on_line = false) ∧
    ((parser.parse_cover_call_or_async_arrow_head st).map Prod.fst
        = .ok .AsyncArrowHead
      ↔ after.value = .Punct .EqualGreater) := by
  unfold parser.parse_cover_parenthesized_and_arrow_parameters
    parser.parse_cover_call_or_async_arrow_head
  rw [h]
  simp only [parser.except_bind_ok]
  constructor
  · by_cases hv : after.value = .Punct .EqualGreater
    · cases hfol : after.first_on_line <;>
        simp [hv, hfol, Bind.bind, Except.bind, Except.map]
    · have hbeq : (after.value == token.TokenValue.Punct .EqualGreater) = false := by
        simp [hv]
      simp [hbeq, hv, Bind.bind, Except.bind, Except.map]
  · by_cases hv : after.value = .Punct .EqualGreater
    · simp [hv, Bind.bind, Except.bind, Except.map]
    · have hbeq : (after.value == token.TokenValue.Punct .EqualGreater) = false := by
        simp [hv]
      simp [hbeq, hv, Bind.bind, Except.bind, Except.map]

/-- C2 (witness): the amended statement at the stream `( a ) =>` with the
arrow on the same line. -/
theorem c2_cover_decision_witness :
    ((parser.parse_cover_parenthesized_and_arrow_parameters fixtures.coverArrowStream).map
          Prod.fst = .ok .ArrowParameters
      ↔ (fixtures.tok (.Punct .EqualGreater) 4 6).value = .Punct .EqualGreater ∧
          (fixtures.tok (.Punct .EqualGreater) 4 6).first_on_line = false) ∧
    ((parser.parse_cover_call_or_async_arrow_head fixtures.coverArrowStream).map
          Prod.fst = .ok .AsyncArrowHead
      ↔ (fixtures.tok (.Punct .EqualGreater) 4 6).value = .Punct .EqualGreater) :=
  c2_cover_decision fixtures.coverArrowStream (fixtures.tok (.Punct .EqualGreater) 4 6)
    fixtures.coverArrowStream rfl

/-- C8: whenever token_after_parenthesis completes (the forward scan over
a parenthesis group plus the rewind) on a stream whose token spans start
at strictly increasing offsets, the resulting stream has the same tokens
and the same cursor as before the scan — the scan has no net effect. -/
theorem c8_scan_restores_stream (st : parser.TokenStream) (after : Option token.Token)
    (st' : parser.TokenStream)
    (hmono : st.tokens.Pairwise (fun a b => a.span.start < b.span.start))
    (h : parser.token_after_parenthesis st = .ok (after, st')) :
    st'.tokens = st.tokens ∧ st'.pos = st.pos := by
  unfold parser.token_after_parenthesis at h
  simp only [parser.except_bind_ok] at h
  obtain ⟨start, hstart, h⟩ := h
  obtain ⟨st1, hskip, h⟩ := h
  have htoks1 : st1.tokens = st.tokens := parser.skip_until_closing_parenthesis_tokens hskip
  have hsome := parser.currentTok_ok hstart
  obtain ⟨hlt, hget⟩ := List.get?_eq_some.mp hsome
  have hget' : st.tokens[st.pos] = start := by
    rw [← hget]
    simp [List.get_eq_getElem]
  have hfind : st.tokens.findIdx (fun x => x.span.start == start.span.start) = st.pos := by
    refine parser.findIdx_eq_of _ st.tokens st.pos hlt ?_ ?_
    · rw [hget]
      simp
    · intro j hj hji
      have hcmp : (st.tokens[j]).span.start < (st.tokens[st.pos]).span.start :=
        List.pairwise_iff_getElem.mp hmono j st.pos hj hlt hji
      rw [hget'] at hcmp
      simp only [List.get_eq_getElem, beq_eq_false_iff_ne]
      exact Nat.ne_of_lt hcmp
  cases hcons : st1.consume with
  | ok pr =>
    obtain ⟨t, st2⟩ := pr
    rw [hcons] at h
    obtain ⟨htoks2, -, -⟩ := parser.consume_ok hcons
    simp only [parser.TokenStream.rewind_to] at h
    obtain ⟨a, ha1, ha2⟩ := h
    cases Except.ok.inj ha1
    have hsnd : ({ st2 with
        pos := st2.tokens.findIdx (fun x => x.span.start == start.span.start) } :
          parser.TokenStream) = st' := congrArg Prod.snd (Except.ok.inj ha2)
    subst hsnd
    constructor
    · simpa using htoks2.trans htoks1
    · simpa [htoks2, htoks1] using hfind
  | error e =>
    rw [hcons] at h
    simp only [parser.TokenStream.rewind_to] at h
    obtain ⟨a, ha1, ha2⟩ := h
    cases Except.ok.inj ha1
    have hsnd : ({ st1 with
        pos := st1.tokens.findIdx (fun x => x.span.start == start.span.start) } :
          parser.TokenStream) = st' := congrArg Prod.snd (Except.ok.inj ha2)
    subst hsnd
    constructor
    · simpa using htoks1
    · simpa [htoks1] using hfind

/-- C8 (witness): on the stream `( a ) =>` (strictly increasing spans)
the scan completes and the stream is restored. -/
theorem c8_scan_restores_stream_witness :
    fixtures.coverArrowStream.tokens = fixtures.coverArrowStream.tokens ∧
    fixtures.coverArrowStream.pos = fixtures.coverArrowStream.pos :=
  c8_scan_restores_stream fixtures.coverArrowStream
    (some (fixtures.tok (.Punct .EqualGreater) 4 6)) fixtures.coverArrowStream
    (by decide) rfl

/-- C3 (counterexample): the claimed body context fails on the code of
src/parser/src/parser/function.rs — a generator declaration
(generator = true) parses its body with Yield = false; an async function
expression parses its body with Await unchanged (false here); Default is
not cleared; and a "use strict" directive prologue does not set Strict. -/
theorem c3_body_context_counterexample :
    parser.function_declaration_body_context parser.Context.default
        ≠ parser.claimed_body_context parser.Context.default false true false ∧
    parser.async_function_expr_body_context parser.Context.default
        ≠ parser.claimed_body_context parser.Context.default true false false ∧
    parser.function_declaration_body_context (parser.Context.default.with_default true)
        ≠ parser.claimed_body_context (parser.Context.default.with_default true)
            false false false ∧
    parser.function_declaration_body_context parser.Context.default
        ≠ parser.claimed_body_context parser.Context.default false false true := by
  refine ⟨?_, ?_, ?_, ?_⟩ <;> decide

/-- C3 (amended): the contexts the staged function.rs actually uses —
function declarations parse parameters and body with Yield := false and
Await := the async flag (the generator flag plays no role); function and
arrow expressions parse their bodies under the unmodified enclosing
context except the async arrow, which sets Await := true; Strict, In and
Default are never changed, and the directive prologue collected by
parse_function_body is not consulted for Strict. -/
theorem c3_body_context_behaviour : ∀ ctx : parser.Context,
    parser.function_declaration_body_context ctx = (ctx.with_yield false).with_await false ∧
    parser.async_function_declaration_body_context ctx
      = (ctx.with_yield false).with_await true ∧
    parser.function_expr_body_context ctx = ctx ∧
    parser.async_function_expr_body_context ctx = ctx ∧
    parser.arrow_function_body_context ctx = ctx ∧
    parser.async_arrow_function_body_context ctx = ctx.with_await true :=
  fun _ => ⟨rfl, rfl, rfl, rfl, rfl, rfl⟩

/-- C6: the for-await head logic of src/parser/src/iteration.rs — without
Await in the context the `await` after `for` is not consumed and parsing
fails on it (for every continuation of the stream); under an Await
context, `for await (const k of xs) ;` parses to a StmtForOf with the
asynchronous flag set; an awaited head that reaches the `;` of a C-style
loop, or an `in`, fails with the "'for await' loops must be used with
'of'" SyntaxError. -/
theorem c6_for_await_head :
    (∀ (y i s d : Bool) (rest : List token.Token),
      parser.parse_for_stmt ⟨false, y, i, s, d⟩
          ⟨fixtures.forTok :: fixtures.awaitTok :: rest, 0⟩
        = .error (parser.Error.expected_other_token fixtures.awaitTok
            (.Punct .ParenOpen))) ∧
    (parser.parse_for_stmt fixtures.awaitCtx fixtures.forAwaitOfStream).map Prod.fst
      = .ok (.ForOf ⟨0, 28⟩
          (.Declaration ⟨⟨12, 19⟩, .Const, .Ident ⟨⟨18, 19⟩, "k"⟩⟩)
          (.IdentRef ⟨⟨23, 25⟩, "xs"⟩) (.Empty ⟨27, 28⟩) true) ∧
    parser.parse_for_stmt fixtures.awaitCtx fixtures.forAwaitSemiStream
      = .error (parser.Error.syntax_error "'for await' loops must be used with 'of'"
          ⟨0, 13⟩) ∧
    parser.parse_for_stmt fixtures.awaitCtx fixtures.forAwaitInStream
      = .error (parser.Error.syntax_error "'for await' loops must be used with 'of'"
          ⟨0, 12⟩) :=
  ⟨fun _ _ _ _ _ => rfl, rfl, rfl, rfl⟩

/-- C7: validate_delete_argument — outside Strict every argument passes;
under Strict an identifier reference wrapped in any number of parentheses
is rejected with the "Delete of an unqualified identifier in strict mode"
SyntaxError carrying the identifier's span. -/
theorem c7_validate_delete_argument :
    (∀ (aw yi inn df : Bool) (arg : parser.Expr),
      parser.validate_delete_argument ⟨aw, yi, inn, false, df⟩ arg = .ok ()) ∧
    (∀ (aw yi inn df : Bool) (ident : parser.Ident) (parens : List Span),
      parser.validate_delete_argument ⟨aw, yi, inn, true, df⟩
          (parser.wrapParens parens (.IdentRef ident))
        = .error (parser.Error.syntax_error
            "Delete of an unqualified identifier in strict mode" ident.span)) := by
  constructor
  · intro aw yi inn df arg
    cases arg <;> simp [parser.validate_delete_argument]
  · intro aw yi inn df ident parens
    induction parens with
    | nil => rfl
    | cons s rest ih =>
      simpa [parser.wrapParens, parser.validate_delete_argument] using ih

/-- C10: parse_export_specifier — with an alias (`export { a as b }`) the
NamedExport stores the exported name "b" in `name` and the local
identifier "a" in `alias_of`; without `as` the local identifier is `name`
and `alias_of` is None. -/
theorem c10_export_specifier :
    (∀ (a b : String) (s1 s2 s3 : Span) (ctx : parser.Context)
        (rest : List token.Token),
      (parser.parse_export_specifier ctx
          ⟨⟨.Identifier a, false, s1⟩ :: ⟨.Keyword .As, false, s2⟩ ::
            ⟨.Identifier b, false, s3⟩ :: rest, 0⟩).map Prod.fst
        = .ok ⟨Span.new s1.start s3.stop, parser.Ident.new b s3,
            some (parser.Ident.new a s1)⟩) ∧
    (∀ (a : String) (s1 s2 : Span) (ctx : parser.Context)
        (rest : List token.Token),
      (parser.parse_export_specifier ctx
          ⟨⟨.Identifier a, false, s1⟩ :: ⟨.Punct .BracketClose, false, s2⟩ :: rest,
            0⟩).map Prod.fst
        = .ok ⟨Span.new s1.start s1.stop, parser.Ident.new a s1, none⟩) :=
  ⟨fun _ _ _ _ _ _ _ => rfl, fun _ _ _ _ _ => rfl⟩

end Fajt
